import Mathlib

/-
Verification of the solar mapping and recommendation app (app.py).

The app is a single Python script: helper functions (panel packing, monthly
energy, suitability scoring, data fetch with fallbacks) followed by a
module-level pipeline that computes panel fit, a monthly energy forecast,
economics (cost, savings, payback) and a suitability score.

The embedding is over exact rationals `ℚ`: Python float arithmetic is
modelled as exact arithmetic, Python `round` (round half to even) is
modelled exactly by `pyRound`, dictionaries keyed by month name as
association lists, and fallible steps (network fetches, dictionary lookup,
reading an unbound global) as `Option` / `Except`.
-/

/-- Python `round` to an integer: round half to even (banker's rounding),
modelled on an exact rational. -/
def roundHalfEven (x : ℚ) : ℤ :=
  if x - Int.floor x < 1/2 then Int.floor x
  else if 1/2 < x - Int.floor x then Int.floor x + 1
  else if Int.floor x % 2 = 0 then Int.floor x else Int.floor x + 1

/-- Python `round(x, d)` for `d ≥ 0` digits, modelled exactly. -/
def pyRound (d : ℕ) (x : ℚ) : ℚ := (roundHalfEven (x * 10 ^ d) : ℚ) / 10 ^ d

/-- numpy `np.clip(x, lo, hi)` on scalars: `min(hi, max(lo, x))`. -/
def np_clip (x lo hi : ℚ) : ℚ := min hi (max lo x)

/-- numpy `np.mean` of a list of values. -/
def np_mean (xs : List ℚ) : ℚ := xs.sum / xs.length

/-- numpy `np.sum` of a list of values. -/
def np_sum (xs : List ℚ) : ℚ := xs.sum

/-- `days_in_months(year)` from app.py (the script calls it with the default
year 2024): month name → day count, with the leap test on February. -/
def days_in_months (year : ℕ) : List (String × ℕ) :=
  [("Jan", 31),
   ("Feb", if year % 4 = 0 ∧ (year % 100 ≠ 0 ∨ year % 400 = 0) then 29 else 28),
   ("Mar", 31), ("Apr", 30), ("May", 31), ("Jun", 30),
   ("Jul", 31), ("Aug", 31), ("Sep", 30), ("Oct", 31), ("Nov", 30), ("Dec", 31)]

/-- The inner `count_axis(avail, p)` of `compute_panels_fit` (it closes over
`clearance`): 0 when the panel dimension is ≤ 0, otherwise
`max(floor((avail + clearance) / (p + clearance)), 0)`. -/
def count_axis (clearance avail p : ℚ) : ℤ :=
  if p ≤ 0 then 0 else max (Int.floor ((avail + clearance) / (p + clearance))) 0

/-- `compute_panels_fit` from app.py: Landscape swaps the panel dimensions,
edge clearance is removed from both roof sides (floored at 0), each axis is
counted by `count_axis`, and the result is `(count, rows, cols)` with
`count = rows * cols`. -/
def compute_panels_fit (roof_w roof_h panel_w panel_h clearance : ℚ)
    (orientation : String) : ℤ × ℤ × ℤ :=
  let pw := if orientation = "Landscape" then panel_h else panel_w
  let ph := if orientation = "Landscape" then panel_w else panel_h
  let avail_w := max (roof_w - 2 * clearance) 0
  let avail_h := max (roof_h - 2 * clearance) 0
  let cols := count_axis clearance avail_w pw
  let rows := count_axis clearance avail_h ph
  (rows * cols, rows, cols)

/-- Transcription of the spec's wording of the panel-fit algorithm
(refinement target for the packing claim): swap on Landscape, per-axis
available dimension `max(side - 2*clearance, 0)`, per-axis count
`floor((available + clearance) / (panel_dim + clearance))` floored at 0
with 0 whenever the panel dimension is ≤ 0, total `rows * cols`. -/
def panels_fit_spec (roof_w roof_h panel_w panel_h clearance : ℚ)
    (orientation : String) : ℤ × ℤ × ℤ :=
  let pw := if orientation = "Landscape" then panel_h else panel_w
  let ph := if orientation = "Landscape" then panel_w else panel_h
  let avail_w := max (roof_w - 2 * clearance) 0
  let avail_h := max (roof_h - 2 * clearance) 0
  let cols : ℤ :=
    if pw ≤ 0 then 0 else max (Int.floor ((avail_w + clearance) / (pw + clearance))) 0
  let rows : ℤ :=
    if ph ≤ 0 then 0 else max (Int.floor ((avail_h + clearance) / (ph + clearance))) 0
  (rows * cols, rows, cols)

/-- `monthly_energy_kwh` from app.py:
`system_kw * monthly_psh * days * performance_ratio * (1 - shading_factor)`. -/
def monthly_energy_kwh (system_kw monthly_psh days performance_ratio
    shading_factor : ℚ) : ℚ :=
  system_kw * monthly_psh * days * performance_ratio * (1 - shading_factor)

/-- Resource sub-score of `suitability_score`: 50 when the monthly dict is
empty/None, otherwise `clip(20 + (mean - 3) * 18, 20, 95)`. -/
def resource_score_of (monthly_psh_values : List ℚ) : ℚ :=
  if monthly_psh_values = [] then 50
  else np_clip (20 + (np_mean monthly_psh_values - 3) * 18) 20 95

/-- Area sub-score of `suitability_score`: `30 + clip((area - 10) * 1.5, 0, 65)`. -/
def area_score_of (roof_area_m2 : ℚ) : ℚ :=
  30 + np_clip ((roof_area_m2 - 10) * (3/2)) 0 65

/-- Shade sub-score of `suitability_score`: `clip(100 - shading_factor * 100, 10, 100)`. -/
def shade_score_of (shading_factor : ℚ) : ℚ :=
  np_clip (100 - shading_factor * 100) 10 100

/-- Tilt sub-score of `suitability_score`:
`ideal = abs(abs(lat) - tilt_deg)`, `clip(100 - ideal * 2.2, 40, 100)`. -/
def tilt_score_of (tilt_deg lat : ℚ) : ℚ :=
  np_clip (100 - |(|lat| - tilt_deg)| * (11/5)) 40 100

/-- `suitability_score` from app.py: weighted sum of the four sub-scores with
weights `[0.35, 0.25, 0.2, 0.2]`, rounded to one decimal. -/
def suitability_score (roof_area_m2 : ℚ) (monthly_psh_values : List ℚ)
    (shading_factor tilt_deg lat : ℚ) : ℚ :=
  pyRound 1 (resource_score_of monthly_psh_values * (7/20)
    + area_score_of roof_area_m2 * (1/4)
    + shade_score_of shading_factor * (1/5)
    + tilt_score_of tilt_deg lat * (1/5))

/-- The `month_map` of `fetch_nasa_power_monthly`: NASA keys "01".."12" to
month names. -/
def month_map : List (String × String) :=
  [("01", "Jan"), ("02", "Feb"), ("03", "Mar"), ("04", "Apr"),
   ("05", "May"), ("06", "Jun"), ("07", "Jul"), ("08", "Aug"),
   ("09", "Sep"), ("10", "Oct"), ("11", "Nov"), ("12", "Dec")]

/-- `fetch_nasa_power_monthly` from app.py. The network response is modelled
by an `Option`: `some values` when the request and parse succeed (the parsed
`ALLSKY_SFC_SW_DWN` key/value pairs), `none` on any failure. On success the
NASA keys are renamed through `month_map`; on failure the function returns
`None` (the docstring: "Falls back to None on failure"). -/
def fetch_nasa_power_monthly (response : Option (List (String × ℚ))) :
    Option (List (String × ℚ)) :=
  match response with
  | some values =>
      some (values.map (fun kv =>
        (((month_map.find? (fun mm => mm.1 == kv.1)).map (fun mm => mm.2)).getD kv.1,
         kv.2)))
  | none => none

/-- `fetch_solar_ghi` from app.py. The two network attempts are modelled by
`Option` arguments: the parsed NASA monthly dict, and the parsed PVGIS
monthly `E_d` list. NASA first; then PVGIS (values divided by 30 to a daily
average, keys "1".."12"); when both fail, the uniform fallback
`{str(i+1): 5.0 for i in range(12)}` with average 5.0 and source label
"Fallback Avg". Returns `(ghi_avg, ghi_monthly, source)`. -/
def fetch_solar_ghi (nasa : Option (List (String × ℚ)))
    (pvgis : Option (List ℚ)) : ℚ × List (String × ℚ) × String :=
  match nasa with
  | some ghi_monthly =>
      (np_mean (ghi_monthly.map (fun kv => kv.2)), ghi_monthly, "NASA POWER")
  | none =>
    match pvgis with
    | some months =>
        let ghi_monthly := months.enum.map (fun p => (toString (p.1 + 1), p.2 / 30))
        (np_mean (ghi_monthly.map (fun kv => kv.2)), ghi_monthly, "PVGIS")
    | none =>
        (5, (List.range 12).map (fun i => (toString (i + 1), (5 : ℚ))), "Fallback Avg")

/-- The economics block of the script (app.py lines 293-296), as a function
of the values it reads: `annual_energy = round(sum(monthly_energy), 1)`,
`install_cost = round(system_kw * cost_per_kw, 0)`,
`annual_savings = round(annual_energy * tariff, 0)`,
`payback_years = round(install_cost / max(annual_savings, 1), 1)`.
Returns `(annual_energy, install_cost, annual_savings, payback_years)`. -/
def economics (monthly_energy : List ℚ) (system_kw cost_per_kw tariff : ℚ) :
    ℚ × ℚ × ℚ × ℚ :=
  let annual_energy := pyRound 1 (np_sum monthly_energy)
  let install_cost := pyRound 0 (system_kw * cost_per_kw)
  let annual_savings := pyRound 0 (annual_energy * tariff)
  let payback_years := pyRound 1 (install_cost / max annual_savings 1)
  (annual_energy, install_cost, annual_savings, payback_years)

/-- Python dict lookup `d[k]` on a month-name → day-count dict: `KeyError`
when the key is absent. -/
def dict_getN (l : List (String × ℕ)) (k : String) : Except String ℕ :=
  match l.find? (fun kv => kv.1 == k) with
  | some kv => Except.ok kv.2
  | none => Except.error ("KeyError: " ++ k)

/-- The global binding of the name `monthly_psh` when app.py line 279 runs.
No statement in app.py ever assigns `monthly_psh` (the helper
`fetch_solar_ghi`, which would produce it, is defined at line 196 but never
called), so the name is unbound: reading it raises `NameError`. `none`
models the unbound name. -/
def monthly_psh_binding : Option (List (String × ℚ)) := none

/-- The module-level pipeline of app.py from the sidebar inputs to the
summary values, in script order: roof area and panel fit (line 233-235),
then the forecast block (line 278-284), which begins by reading the global
`monthly_psh` — modelled by `monthly_psh_binding`, with `none` raising
`NameError` as Python does for an unbound name — then the economics block
(line 293-296) and the suitability score (line 317). Returns
`(count, system_kw, annual_energy, install_cost, annual_savings,
payback_years, score)`, or the uncaught exception as an error. -/
def app_run (lat lon roof_w roof_h clearance panel_w panel_h panel_watt : ℚ)
    (orientation : String)
    (performance_ratio shading_factor tilt_deg cost_per_kw tariff : ℚ) :
    Except String (ℤ × ℚ × ℚ × ℚ × ℚ × ℚ × ℚ) := do
  let roof_area := roof_w * roof_h
  let fit := compute_panels_fit roof_w roof_h panel_w panel_h clearance orientation
  let count := fit.1
  let system_kw := pyRound 2 ((count : ℚ) * panel_watt / 1000)
  let monthly_psh ← match monthly_psh_binding with
    | some d => Except.ok d
    | none => Except.error "NameError: name monthly_psh is not defined"
  let dim := days_in_months 2024
  let monthly_energy ← monthly_psh.mapM (fun kv => do
    let d ← dict_getN dim kv.1
    Except.ok (monthly_energy_kwh system_kw kv.2 (d : ℚ) performance_ratio
      shading_factor))
  let ec := economics monthly_energy system_kw cost_per_kw tariff
  let score := suitability_score roof_area (monthly_psh.map (fun kv => kv.2))
    shading_factor tilt_deg lat
  Except.ok (count, system_kw, ec.1, ec.2.1, ec.2.2.1, ec.2.2.2, score)

/- ------------------------- Helper lemmas ------------------------- -/

theorem roundHalfEven_bounds (x : ℚ) :
    x - 1/2 ≤ (roundHalfEven x : ℚ) ∧ (roundHalfEven x : ℚ) ≤ x + 1/2 := by
  have h1 := Int.floor_le x
  have h2 := Int.lt_floor_add_one x
  unfold roundHalfEven
  split_ifs <;> constructor <;> push_cast <;> linarith

theorem pyRound_one_bounds (x : ℚ) :
    x - 1/20 ≤ pyRound 1 x ∧ pyRound 1 x ≤ x + 1/20 := by
  have h := roundHalfEven_bounds (x * 10 ^ 1)
  rw [pow_one] at h
  unfold pyRound
  rw [pow_one]
  constructor
  · linarith [h.1]
  · linarith [h.2]

theorem np_clip_bounds (x lo hi : ℚ) (h : lo ≤ hi) :
    lo ≤ np_clip x lo hi ∧ np_clip x lo hi ≤ hi :=
  ⟨le_min h (le_max_left lo x), min_le_left hi (max lo x)⟩

theorem count_axis_nonneg (c a p : ℚ) : 0 ≤ count_axis c a p := by
  unfold count_axis
  split_ifs
  · exact le_rfl
  · exact le_max_right _ _

theorem count_axis_avail_anti (L p c1 c2 : ℚ) (hp : 0 < p) (hc1 : 0 ≤ c1)
    (hc12 : c1 ≤ c2) :
    count_axis c2 (max (L - 2 * c2) 0) p ≤ count_axis c1 (max (L - 2 * c1) 0) p := by
  have hc2 : (0:ℚ) ≤ c2 := hc1.trans hc12
  have hd2 : (0:ℚ) < p + c2 := by linarith
  have hd1 : (0:ℚ) < p + c1 := by linarith
  unfold count_axis
  rw [if_neg (not_le.mpr hp), if_neg (not_le.mpr hp)]
  rcases le_or_lt 0 (L - 2 * c2) with h2 | h2
  · have h1 : (0:ℚ) ≤ L - 2 * c1 := by linarith
    rw [max_eq_left h2, max_eq_left h1]
    refine max_le_max ?_ le_rfl
    apply Int.floor_le_floor
    rw [div_le_div_iff₀ hd2 hd1]
    nlinarith [mul_nonneg (sub_nonneg.mpr hc12) (by linarith : (0:ℚ) ≤ L + p)]
  · rw [max_eq_right h2.le]
    have hfl : Int.floor ((0 + c2) / (p + c2)) = 0 := by
      rw [Int.floor_eq_zero_iff, Set.mem_Ico]
      constructor
      · exact div_nonneg (by linarith) hd2.le
      · rw [div_lt_one hd2]
        linarith
    rw [hfl, max_self]
    exact le_max_right _ _

theorem compute_panels_fit_count (W H pw ph c : ℚ) (o : String) :
    (compute_panels_fit W H pw ph c o).1 =
      count_axis c (max (H - 2 * c) 0) (if o = "Landscape" then pw else ph) *
        count_axis c (max (W - 2 * c) 0) (if o = "Landscape" then ph else pw) := rfl

theorem compute_panels_fit_portrait (W H pw ph c : ℚ) :
    compute_panels_fit W H pw ph c "Portrait" =
      (count_axis c (max (H - 2 * c) 0) ph * count_axis c (max (W - 2 * c) 0) pw,
       count_axis c (max (H - 2 * c) 0) ph,
       count_axis c (max (W - 2 * c) 0) pw) := rfl

/- ------------------------- Claim theorems ------------------------- -/

/-- Claim C1 (code_bug evidence): for every combination of user inputs, the
end-to-end pipeline does NOT produce an estimate: app.py line 279 reads the
global `monthly_psh`, which no statement of the script ever assigns
(`fetch_solar_ghi` is defined but never called), so the run raises
`NameError` before the forecast, economics, suitability and summary render —
a hard failure, not the permitted fetch-fallback notice. -/
theorem app_run_raises_name_error (lat lon roof_w roof_h clearance panel_w
    panel_h panel_watt : ℚ) (o : String) (pr sh tilt cost tariff : ℚ) :
    app_run lat lon roof_w roof_h clearance panel_w panel_h panel_watt o
        pr sh tilt cost tariff
      = Except.error "NameError: name monthly_psh is not defined" := rfl

/-- Claim C2: `compute_panels_fit` swaps the panel dimensions for Landscape,
uses available dimensions `max(side - 2*clearance, 0)`, counts each axis as
`floor((available + clearance) / (panel_dim + clearance))` floored at 0 (0
when the panel dimension is ≤ 0), returns `count = rows * cols`; and on roof
10 m × 8 m, panel 1.1 m × 1.75 m Portrait, clearance 0.4 m it returns
cols = 6, rows = 3, count = 18. -/
theorem compute_panels_fit_matches_spec (W H pw ph c : ℚ) (o : String)
    (hc : 0 ≤ c) :
    compute_panels_fit W H pw ph c o = panels_fit_spec W H pw ph c o ∧
      compute_panels_fit 10 8 (11/10) (7/4) (2/5) "Portrait" = (18, 3, 6) := by
  constructor
  · rfl
  · rw [compute_panels_fit_portrait]
    norm_num [count_axis, max_def]

/-- Witness for the panel-fit claim at the spec's concrete scenario. -/
theorem compute_panels_fit_matches_spec_witness :
    (0:ℚ) ≤ 2/5 ∧
      (compute_panels_fit 10 8 (11/10) (7/4) (2/5) "Portrait"
          = panels_fit_spec 10 8 (11/10) (7/4) (2/5) "Portrait" ∧
        compute_panels_fit 10 8 (11/10) (7/4) (2/5) "Portrait" = (18, 3, 6)) :=
  ⟨by norm_num,
   compute_panels_fit_matches_spec 10 8 (11/10) (7/4) (2/5) "Portrait"
     (by norm_num)⟩

/-- Claim C3 counterexample: the annual total is NOT the exact sum of the
monthly values. With capacity 1 kW, uniform PSH 1, PR 0.77, shading 0 and
the script's 2024 day counts, the exact sum is 281.82 kWh but
`annual_energy = round(sum, 1)` is 281.8 kWh — the rounding happens before
the total is used downstream, not only at presentation. -/
theorem annual_total_rounding_cex :
    (economics ((days_in_months 2024).map
          (fun p => monthly_energy_kwh 1 1 (p.2 : ℚ) (77/100) 0)) 1 55000 8).1
      ≠ np_sum ((days_in_months 2024).map
          (fun p => monthly_energy_kwh 1 1 (p.2 : ℚ) (77/100) 0)) := by
  norm_num [economics, pyRound, roundHalfEven, np_sum, days_in_months,
    monthly_energy_kwh, max_def]

/-- Claim C3 as amended: `annual_energy` equals the sum of the monthly
energies rounded to one decimal, and it is this rounded value (not the exact
sum) that the downstream `annual_savings = round(annual_energy * tariff, 0)`
consumes. -/
theorem annual_total_rounded_sum (me : List ℚ) (s c t : ℚ) :
    (economics me s c t).1 = pyRound 1 (np_sum me) ∧
      (economics me s c t).2.2.1 = pyRound 0 ((economics me s c t).1 * t) :=
  ⟨rfl, rfl⟩

/-- Claim C4 counterexample: at tilt 90°, latitude 0, the claimed tilt-loss
factor is `max(0.5, cos(radians(90 - 0))) = 0.5`, but the code's monthly
energy (capacity 1, PSH 1, 1 day, PR 1, shading 0) is 1, not 0.5 times
itself: no such factor is applied anywhere in the energy path. -/
theorem tilt_factor_not_applied_cex :
    ((monthly_energy_kwh 1 1 1 1 0 : ℚ) : ℝ) ≠
      max (1/2) (Real.cos ((90 - |(0 : ℝ)|) * Real.pi / 180)) *
        ((monthly_energy_kwh 1 1 1 1 0 : ℚ) : ℝ) := by
  have h1 : (monthly_energy_kwh 1 1 1 1 0 : ℚ) = 1 := by
    norm_num [monthly_energy_kwh]
  have h2 : (90 - |(0 : ℝ)|) * Real.pi / 180 = Real.pi / 2 := by
    rw [abs_zero, sub_zero]
    ring
  rw [h1, h2, Real.cos_pi_div_two, max_eq_left (by norm_num : (0:ℝ) ≤ 1/2)]
  norm_num

/-- Claim C4 as amended: the forecast applies NO tilt-loss factor — the
monthly energy is exactly capacity × PSH × days × PR × (1 − shading), with
no tilt or latitude argument at all; tilt and latitude influence only the
suitability score. -/
theorem monthly_energy_no_tilt_factor (s p d pr sh : ℚ) :
    monthly_energy_kwh s p d pr sh = s * p * d * pr * (1 - sh) := rfl

/-- Claim C5 counterexample: `fetch_nasa_power_monthly` — one of the
monthly-solar-resource acquisition functions — returns `None` (a null
result) on data-acquisition failure, not a 12-entry fallback mapping. -/
theorem nasa_fetch_returns_null_on_failure :
    fetch_nasa_power_monthly none = none := rfl

/-- Claim C5 as amended: `fetch_solar_ghi` (the acquisition function with
the fallback chain), when both external fetches fail, returns the source
label "Fallback Avg", a mapping with exactly 12 entries all equal to
5.0 kWh/m²/day, and average 5.0 — rather than an error or null. -/
theorem fetch_solar_ghi_uniform_fallback :
    (fetch_solar_ghi none none).2.2 = "Fallback Avg" ∧
      ((fetch_solar_ghi none none).2.1).length = 12 ∧
      (∀ kv ∈ (fetch_solar_ghi none none).2.1, kv.2 = 5) ∧
      (fetch_solar_ghi none none).1 = 5 := by
  refine ⟨rfl, rfl, ?_, rfl⟩
  simp [fetch_solar_ghi, List.range_succ]

/-- Claim C6 counterexample: for capacity 7.2 kW, PSH 5.0, 31 days, PR 0.75,
shading 0.1, `monthly_energy_kwh` does NOT equal the claimed 752.76 kWh. -/
theorem monthly_energy_scenario_cex :
    monthly_energy_kwh (36/5) 5 31 (3/4) (1/10) ≠ 18819/25 := by
  norm_num [monthly_energy_kwh]

/-- Claim C6 as amended: for capacity 7.2 kW, PSH 5.0, 31 days, PR 0.75,
shading 0.1, the per-month energy is 7.2 × 5.0 × 31 × 0.75 × 0.9
= 753.3 kWh (the spec's 752.76 is a miscalculation of the same product). -/
theorem monthly_energy_scenario_value :
    monthly_energy_kwh (36/5) 5 31 (3/4) (1/10) = 7533/10 := by
  norm_num [monthly_energy_kwh]

/-- Claim C7 counterexample: the payback value is not the bare quotient
`install_cost / max(annual_savings, 1)`. With monthly energy [3], capacity
1 kW, cost 100/kW, tariff 1: install 100, savings 3, and the code yields
round(100/3, 1) = 33.3 ≠ 100/3. -/
theorem payback_rounding_cex :
    (economics [3] 1 100 1).2.2.2
      ≠ (economics [3] 1 100 1).2.1 / max (economics [3] 1 100 1).2.2.1 1 := by
  norm_num [economics, pyRound, roundHalfEven, np_sum, max_def]

/-- Claim C7 as amended: `payback_years` equals
`round(install_cost / max(annual_savings, 1), 1)`; the denominator floor of
1 makes it a division by a positive number for every savings value
(including 0), so the result is always finite; and for install cost 396000
(7.2 kW × 55000) with annual savings 0 the payback is exactly 396000. -/
theorem payback_floored_denominator (me : List ℚ) (s c t : ℚ) :
    (economics me s c t).2.2.2
        = pyRound 1 ((economics me s c t).2.1 / max (economics me s c t).2.2.1 1) ∧
      0 < max (economics me s c t).2.2.1 1 ∧
      (economics [0] (36/5) 55000 8).2.1 = 396000 ∧
      (economics [0] (36/5) 55000 8).2.2.1 = 0 ∧
      (economics [0] (36/5) 55000 8).2.2.2 = 396000 := by
  refine ⟨rfl, lt_of_lt_of_le one_pos (le_max_right _ 1), ?_, ?_, ?_⟩ <;>
    norm_num [economics, pyRound, roundHalfEven, np_sum, max_def]

/-- Claim C8: for all real-valued inputs — any roof area, any monthly
resource list (including empty/None), any shading factor, tilt and latitude,
in or out of range — `suitability_score` lies in [0, 100]: the four clamped
sub-scores combined with weights 0.35/0.25/0.2/0.2 and rounded to one
decimal. -/
theorem suitability_score_in_range (roof_area : ℚ) (psh : List ℚ)
    (sh tilt lat : ℚ) :
    0 ≤ suitability_score roof_area psh sh tilt lat ∧
      suitability_score roof_area psh sh tilt lat ≤ 100 := by
  have hr : 20 ≤ resource_score_of psh ∧ resource_score_of psh ≤ 95 := by
    unfold resource_score_of
    split_ifs
    · norm_num
    · exact np_clip_bounds _ _ _ (by norm_num)
  have ha : 30 ≤ area_score_of roof_area ∧ area_score_of roof_area ≤ 95 := by
    have h := np_clip_bounds ((roof_area - 10) * (3/2)) 0 65 (by norm_num)
    unfold area_score_of
    constructor <;> linarith [h.1, h.2]
  have hs : 10 ≤ shade_score_of sh ∧ shade_score_of sh ≤ 100 := by
    unfold shade_score_of
    exact np_clip_bounds _ _ _ (by norm_num)
  have ht : 40 ≤ tilt_score_of tilt lat ∧ tilt_score_of tilt lat ≤ 100 := by
    unfold tilt_score_of
    exact np_clip_bounds _ _ _ (by norm_num)
  have hp := pyRound_one_bounds (resource_score_of psh * (7/20)
    + area_score_of roof_area * (1/4) + shade_score_of sh * (1/5)
    + tilt_score_of tilt lat * (1/5))
  unfold suitability_score
  constructor
  · linarith [hr.1, ha.1, hs.1, ht.1, hp.1]
  · linarith [hr.2, ha.2, hs.2, ht.2, hp.2]

/-- Claim C9: for fixed roof and positive panel dimensions, the panel count
of `compute_panels_fit` is monotone non-increasing in the clearance: for
0 ≤ c1 ≤ c2, the count at c2 is at most the count at c1. -/
theorem panels_fit_clearance_antitone (W H pw ph c1 c2 : ℚ) (o : String)
    (hpw : 0 < pw) (hph : 0 < ph) (hc1 : 0 ≤ c1) (hc12 : c1 ≤ c2) :
    (compute_panels_fit W H pw ph c2 o).1
      ≤ (compute_panels_fit W H pw ph c1 o).1 := by
  rw [compute_panels_fit_count, compute_panels_fit_count]
  have hq : (0:ℚ) < (if o = "Landscape" then pw else ph) := by
    split_ifs <;> assumption
  have hq2 : (0:ℚ) < (if o = "Landscape" then ph else pw) := by
    split_ifs <;> assumption
  exact mul_le_mul (count_axis_avail_anti H _ c1 c2 hq hc1 hc12)
    (count_axis_avail_anti W _ c1 c2 hq2 hc1 hc12)
    (count_axis_nonneg _ _ _) (count_axis_nonneg _ _ _)

/-- Witness for the clearance monotonicity claim: the spec's roof and panel
with clearance raised from 0.4 m to 1 m. -/
theorem panels_fit_clearance_antitone_witness :
    (compute_panels_fit 10 8 (11/10) (7/4) 1 "Portrait").1
      ≤ (compute_panels_fit 10 8 (11/10) (7/4) (2/5) "Portrait").1 :=
  panels_fit_clearance_antitone 10 8 (11/10) (7/4) (2/5) 1 "Portrait"
    (by norm_num) (by norm_num) (by norm_num) (by norm_num)

/-- Claim C10: Landscape orientation is exactly a swap of the panel's two
dimensions: `compute_panels_fit` with "Landscape" returns the same
(count, rows, cols) triple as with the dimensions swapped and "Portrait". -/
theorem landscape_swaps_panel_dims (W H a b c : ℚ) :
    compute_panels_fit W H a b c "Landscape"
      = compute_panels_fit W H b a c "Portrait" := rfl
